import Mathlib

/-!
Verification of the multi-strategy Access extraction subsystem of
lazarohernan/convertidoracces against its specification.

The embedding models:
* the tabular value model (`Cell`, `DataFrame`) shared by readers and writers;
* `RobustAccessReader.read` (src/src/readers/robust_access_reader.py) with its
  ordered strategy chain mdb-tools / pyodbc / SQLAlchemy / manual conversion;
* the temp-file side effects of the mdb-tools strategy
  (`_export_table_mdbtools` / `_try_mdbtools`);
* the year partition engine (`get_year_summary`, `read_by_year`); these two
  methods are called from src/src/core/converter.py and the tests but their
  definitions are absent from src/, so they are modelled from the spec (sec 4.3);
* the batch orchestrator `FileConverter.convert_access_by_year` and its helper
  `process_single_year` (src/src/core/converter.py);
* the naming function `FileConverter._generate_year_filename`.

Environment-dependent behaviour (which external tools are installed, what the
binary file contains, what the external subprocesses and drivers return) is
passed in explicitly as oracle values, so each Python code path becomes a pure
branch of the Lean definition.
-/

/-- Cell values of the tabular model: null, integer, text or boolean.
(The spec also allows floating point and timestamps; they play no role in the
year logic verified here and are omitted from the embedding.) -/
inductive Cell where
  | null
  | intVal (n : Int)
  | textVal (s : String)
  | boolVal (b : Bool)
deriving DecidableEq, Repr

/-- The universal in-memory table: ordered column names and ordered rows of
cells, mirroring the pandas `DataFrame` used throughout the source. -/
structure DataFrame where
  columns : List String
  rows : List (List Cell)
deriving DecidableEq, Repr

/-- pandas `df.empty`: true when the frame has no elements, i.e. some axis has
length zero. -/
def DataFrame.isEmpty (df : DataFrame) : Bool :=
  df.rows.isEmpty || df.columns.isEmpty

/-- Filesystem metadata of the source file, as queried by
`RobustAccessReader.read` via `Path.exists()` and `stat().st_size`. -/
structure FileInfo where
  present : Bool
  size : Nat

/-- Outcome of the mdb-tools environment as seen by `_try_mdbtools`:
whether `mdb-tables` is installed, the tables it lists, and the result of
exporting one named table and parsing the resulting CSV. -/
structure MdbToolsEnv where
  available : Bool
  tables : List String
  data : String → Except String DataFrame

/-- Outcome of the pyodbc environment as seen by `_try_pyodbc`: whether the
module import and the connection succeed, the tables the cursor lists, and
the result of `SELECT * FROM [table]`. -/
structure PyodbcEnv where
  available : Bool
  tables : List String
  data : String → Except String DataFrame

/-- Outcome of the SQLAlchemy environment as seen by `_try_sqlalchemy`. -/
structure SqlalchemyEnv where
  available : Bool
  tables : List String
  data : String → Except String DataFrame

/-- The whole host environment consulted by the strategy chain. -/
structure ReaderEnv where
  mdb : MdbToolsEnv
  pyodbc : PyodbcEnv
  sqlalchemy : SqlalchemyEnv

/-- Message raised by `_try_mdbtools` when no table name is supplied
(robust_access_reader.py lines 94-99); it lists the available table names. -/
def ambiguousTableMsg (tables : List String) : String :=
  "No se especificó una tabla. Tablas disponibles: " ++
    String.intercalate ", " tables ++
    ". Especifica una tabla usando el parámetro table_name."

/-- `RobustAccessReader._try_mdbtools`: requires the tool, lists tables,
rejects a missing table name (listing the alternatives), then exports the
named table to CSV and parses it. -/
def tryMdbtools (env : MdbToolsEnv) (tableName : Option String) :
    Except String (Option DataFrame) :=
  if !env.available then .error "mdb-tools no está instalado"
  else if env.tables.isEmpty then .error "No se encontraron tablas en el archivo"
  else
    match tableName with
    | none => .error (ambiguousTableMsg env.tables)
    | some t =>
      if env.tables.contains t then (env.data t).map some
      else .error ("Tabla no encontrada: " ++ t)

/-- `RobustAccessReader._try_pyodbc`: connects, silently defaults to the first
listed table when none is given (lines 130-137), then reads the table. -/
def tryPyodbc (env : PyodbcEnv) (tableName : Option String) :
    Except String (Option DataFrame) :=
  if !env.available then .error "pyodbc no disponible"
  else
    match (match tableName with | some t => some t | none => env.tables.head?) with
    | none => .error "No se encontraron tablas"
    | some t => (env.data t).map some

/-- `RobustAccessReader._try_sqlalchemy`: same default-to-first-table shape as
pyodbc (lines 157-165). -/
def trySqlalchemy (env : SqlalchemyEnv) (tableName : Option String) :
    Except String (Option DataFrame) :=
  if !env.available then .error "SQLAlchemy no disponible"
  else
    match (match tableName with | some t => some t | none => env.tables.head?) with
    | none => .error "No se encontraron tablas"
    | some t => (env.data t).map some

/-- `RobustAccessReader._try_manual_conversion`: the last-resort strategy
unconditionally raises a remediation message (lines 175-180). -/
def tryManualConversion : Except String (Option DataFrame) :=
  .error "No se pudo leer automáticamente. Por favor, convierte el archivo a CSV/Excel usando Microsoft Access o mdb-tools."

/-- Aggregate failure message raised after every strategy failed
(lines 75-79); it embeds the textual form of the last recorded error
(Python renders a never-assigned last error as the text None). -/
def aggregateErrorMsg (lastError : Option String) : String :=
  "No se pudo leer el archivo Access. Último error: " ++
    (match lastError with | some e => e | none => "None") ++
    ". Recomendación: Convierte el archivo a CSV/Excel primero."

/-- The strategy loop of `RobustAccessReader.read` (lines 58-79): an exception
records a new last error and advances; a None or empty frame advances without
touching the last error; the first non-empty frame is returned; exhaustion
raises the aggregate error. -/
def tryMethods : List (Except String (Option DataFrame)) → Option String →
    Except String DataFrame
  | [], lastError => .error (aggregateErrorMsg lastError)
  | m :: ms, lastError =>
    match m with
    | .error e => tryMethods ms (some e)
    | .ok none => tryMethods ms lastError
    | .ok (some df) => if !df.isEmpty then .ok df else tryMethods ms lastError

/-- The fixed preference order of strategies (lines 51-56). -/
def readMethods (env : ReaderEnv) (tableName : Option String) :
    List (Except String (Option DataFrame)) :=
  [tryMdbtools env.mdb tableName,
   tryPyodbc env.pyodbc tableName,
   trySqlalchemy env.sqlalchemy tableName,
   tryManualConversion]

/-- `RobustAccessReader.read` (lines 29-79): existence and non-zero-size checks
first, then the strategy chain. -/
def RobustAccessReader.read (env : ReaderEnv) (file : FileInfo)
    (tableName : Option String) : Except String DataFrame :=
  if !file.present then .error "El archivo no existe"
  else if file.size = 0 then .error "El archivo está vacío"
  else tryMethods (readMethods env tableName) none

example : RobustAccessReader.read
    ⟨⟨false, [], fun _ => .error "x"⟩,
     ⟨true, ["A", "B"], fun _ => .ok ⟨["c"], [[Cell.intVal 1]]⟩⟩,
     ⟨false, [], fun _ => .error "x"⟩⟩
    ⟨true, 7⟩ none = .ok ⟨["c"], [[Cell.intVal 1]]⟩ := rfl

example : RobustAccessReader.read
    ⟨⟨false, [], fun _ => .error "x"⟩,
     ⟨false, [], fun _ => .error "x"⟩,
     ⟨false, [], fun _ => .error "x"⟩⟩
    ⟨true, 0⟩ none = .error "El archivo está vacío" := rfl

/-! ## Temp-file side effects of the mdb-tools strategy (C9)

`_export_table_mdbtools` (lines 276-296) creates a temporary CSV via
`tempfile.mkstemp` and, on subprocess success, writes the export into it; the
caller `_try_mdbtools` (lines 104-113) parses the CSV and then calls
`os.unlink`.  There is no try/finally around either step.  The state threaded
below is the set of temporary files currently on disk, and `fresh` is the
unique name `mkstemp` would pick. -/

/-- Per-call outcome of the external steps of the mdb-tools path. -/
structure MdbRunEnv where
  available : Bool
  tables : List String
  exportFails : Bool
  parseResult : Except String DataFrame

/-- `RobustAccessReader._export_table_mdbtools`: creates the temp file, then
either fails (subprocess error, temp file left on disk) or reports its path. -/
def exportTableMdbtools (env : MdbRunEnv) (tempFiles : List Nat) (fresh : Nat) :
    Except String Nat × List Nat :=
  let created := fresh :: tempFiles
  if env.exportFails then (.error "Error exportando tabla", created)
  else (.ok fresh, created)

/-- `RobustAccessReader._try_mdbtools` with its temp-file effects: on a parse
failure the exception propagates before the `os.unlink` line runs. -/
def tryMdbtoolsFS (env : MdbRunEnv) (tableName : Option String)
    (tempFiles : List Nat) (fresh : Nat) :
    Except String DataFrame × List Nat :=
  if !env.available then (.error "mdb-tools no está instalado", tempFiles)
  else if env.tables.isEmpty then (.error "No se encontraron tablas en el archivo", tempFiles)
  else
    match tableName with
    | none => (.error (ambiguousTableMsg env.tables), tempFiles)
    | some t =>
      if env.tables.contains t then
        match exportTableMdbtools env tempFiles fresh with
        | (.error e, st) => (.error e, st)
        | (.ok path, st) =>
          match env.parseResult with
          | .error e => (.error e, st)
          | .ok df => (.ok df, st.erase path)
      else (.error ("Tabla no encontrada: " ++ t), tempFiles)

/-! ## Year partition engine (spec sec 4.3)

`get_year_summary` and `read_by_year` are invoked on `RobustAccessReader` by
`FileConverter.convert_access_by_year` (src/src/core/converter.py lines 291,
324), by test_conversion_por_año.py and by web_interface_robust.py, but no
definition of either method exists anywhere under src/.  They are therefore
modelled from the spec below.  Full-table extraction is abstracted as the
oracle `extract` (one call per table, spec sec 4.1). -/

/-- Modelled from the spec: year parsing used by the missing
`RobustAccessReader.get_year_summary` / `read_by_year` (spec sec 4.3:
distinct values of the year column, "discarding nulls and values that fail to
parse as a 4-digit year"; comparison "as integers"). -/
def parseYear : Cell → Option Int
  | Cell.null => none
  | Cell.intVal n => if 1000 ≤ n ∧ n ≤ 9999 then some n else none
  | Cell.textVal s =>
    match s.toInt? with
    | some n => if 1000 ≤ n ∧ n ≤ 9999 then some n else none
    | none => none
  | Cell.boolVal _ => none

/-- The year value of one row, read at the designated year column index. -/
def rowYear (r : List Cell) (i : Nat) : Option Int :=
  (r.get? i).bind parseYear

/-- All parseable years of a table, in row order, duplicates kept. -/
def validYears (df : DataFrame) (i : Nat) : List Int :=
  df.rows.filterMap (fun r => rowYear r i)

/-- The sorted set of distinct years of a table (spec sec 4.3:
"available_years: sorted set of integers"). -/
def sortedYears (df : DataFrame) (i : Nat) : List Int :=
  List.insertionSort (· ≤ ·) (validYears df i).dedup

/-- One table's entry in the Year Partition Summary (spec secs 3 and 6). -/
structure TableSummary where
  row_count : Nat
  column_count : Nat
  available_years : List Int
  error : Option String
deriving DecidableEq, Repr

/-- Modelled from the spec: the per-table analysis inside the missing
`RobustAccessReader.get_year_summary` (spec sec 4.3 summarize): a failed
extraction or a missing year column becomes a per-table error annotation;
otherwise the entry carries row count, column count and the sorted distinct
years. -/
def summarizeTable (extracted : Except String DataFrame) (yearColumn : String) :
    TableSummary :=
  match extracted with
  | .error e => ⟨0, 0, [], some e⟩
  | .ok df =>
    match df.columns.indexOf? yearColumn with
    | none => ⟨0, 0, [], some ("La tabla no tiene la columna de año " ++ yearColumn)⟩
    | some i => ⟨df.rows.length, df.columns.length, sortedYears df i, none⟩

/-- Modelled from the spec: the missing `RobustAccessReader.get_year_summary`
(spec sec 4.3): one entry per table, each computed independently from one full
extraction; failures stay inside the entry. -/
def get_year_summary (extract : String → Except String DataFrame)
    (tableNames : List String) (yearColumn : String) :
    List (String × TableSummary) :=
  tableNames.map (fun t => (t, summarizeTable (extract t) yearColumn))

/-- Modelled from the spec: the missing `RobustAccessReader.read_by_year`
(spec sec 4.3 read_one_year): re-extracts the full table, then keeps exactly
the rows whose year-column value parses to the requested year; no rows
matching is an empty table, not an error. -/
def read_by_year (extract : String → Except String DataFrame)
    (tableName : String) (year : Int) (yearColumn : String) :
    Except String DataFrame :=
  match extract tableName with
  | .error e => .error e
  | .ok df =>
    match df.columns.indexOf? yearColumn with
    | none => .error ("La tabla no tiene la columna de año " ++ yearColumn)
    | some i => .ok ⟨df.columns, df.rows.filter (fun r => rowYear r i == some year)⟩

example :
    summarizeTable
      (.ok ⟨["N_ANIO", "v"],
            [[Cell.intVal 2008, Cell.textVal "a"],
             [Cell.intVal 2009, Cell.textVal "b"],
             [Cell.intVal 2008, Cell.textVal "c"],
             [Cell.null, Cell.textVal "d"],
             [Cell.intVal 12, Cell.textVal "e"]]⟩)
      "N_ANIO"
    = ⟨5, 2, [2008, 2009], none⟩ := by decide

/-! ## Batch orchestrator (`FileConverter.convert_access_by_year`,
src/src/core/converter.py lines 249-413) -/

/-- One entry of `result['conversions_by_year']` (converter.py lines 327-337,
356-365, 370-380).  `output_file` is absent (`none`) in error entries. -/
structure ConvEntry where
  table : String
  year : Int
  status : String
  error : Option String
  rows_converted : Nat
  columns : Nat
  output_file : Option String
  file_size : Nat
deriving DecidableEq, Repr

/-- The report key `f"{table_name}_{year}"` used for
`result['conversions_by_year']` (converter.py lines 328, 367, 371). -/
def convKey (t : String) (y : Int) : String :=
  t ++ "_" ++ toString y

/-- The job list built from the year summary (converter.py lines 310-319):
every (table, year) pair from tables with no summary error and a non-empty
year list. -/
def enumerateJobs (summary : List (String × TableSummary)) : List (String × Int) :=
  summary.flatMap (fun p =>
    if p.2.error.isSome then []
    else if p.2.available_years.isEmpty then []
    else p.2.available_years.map (fun y => (p.1, y)))

/-- An error entry as built by `process_single_year` (converter.py lines
327-337 and 370-380): zero counts, no output file. -/
def errorEntry (t : String) (y : Int) (msg : String) : ConvEntry :=
  ⟨t, y, "error", some msg, 0, 0, none, 0⟩

/-- `process_single_year` (converter.py lines 321-380).  `readF` is the
outcome of `access_reader.read_by_year` (a raise becomes `.error`), `writeF`
the outcome of `self._write_file` plus the `stat` of the artifact (its size),
and `fname` the artifact name from `_generate_year_filename`.  The surrounding
try/except converts any exception into that job's error entry. -/
def process_single_year (readF : String → Int → Except String DataFrame)
    (writeF : String → Int → Except String Nat)
    (fname : String → Int → String)
    (t : String) (y : Int) : String × ConvEntry :=
  match readF t y with
  | .error e => (convKey t y, errorEntry t y e)
  | .ok df =>
    if df.isEmpty then (convKey t y, errorEntry t y "Sin datos")
    else
      match writeF t y with
      | .error e => (convKey t y, errorEntry t y e)
      | .ok size =>
        (convKey t y,
         ⟨t, y, "success", none, df.rows.length, df.columns.length,
          some (fname t y), size⟩)

/-- Assignment into the Python dict `result['conversions_by_year']`: replace
the entry of an existing key in place, else append in insertion order. -/
def insertConv (m : List (String × ConvEntry)) (k : String) (v : ConvEntry) :
    List (String × ConvEntry) :=
  if (m.map Prod.fst).contains k then
    m.map (fun p => if p.1 = k then (k, v) else p)
  else m ++ [(k, v)]

/-- The sequential job loop of `convert_access_by_year` (converter.py lines
390-393); the parallel branch produces the same keyed entries in completion
order. -/
def runJobs (readF : String → Int → Except String DataFrame)
    (writeF : String → Int → Except String Nat)
    (fname : String → Int → String)
    (jobs : List (String × Int)) : List (String × ConvEntry) :=
  jobs.foldl (fun acc j =>
    insertConv acc (process_single_year readF writeF fname j.1 j.2).1
      (process_single_year readF writeF fname j.1 j.2).2) []

/-- `successful_conversions` (converter.py lines 396-397). -/
def successEntries (convs : List (String × ConvEntry)) : List (String × ConvEntry) :=
  convs.filter (fun p => p.2.status == "success")

/-- `result['total_rows_converted']` (converter.py line 400). -/
def total_rows_converted (convs : List (String × ConvEntry)) : Nat :=
  ((successEntries convs).map (fun p => p.2.rows_converted)).sum

/-- `result['total_files_created']` (converter.py line 401). -/
def total_files_created (convs : List (String × ConvEntry)) : Nat :=
  (successEntries convs).length

/-- `result['total_size_mb']` (converter.py line 402), in bytes here. -/
def total_size (convs : List (String × ConvEntry)) : Nat :=
  ((successEntries convs).map (fun p => p.2.file_size)).sum

/-! ## Naming function (`FileConverter._generate_year_filename`,
converter.py lines 415-485)

Python string primitives are embedded over the underlying character lists:
`str.lower`, `str.replace`, the `in` test, and the character class kept by
`re.sub(r'[^a-zA-Z0-9_-]', '', ...)`.  `datetime.now().strftime(...)` is an
ambient input and enters the embedding as the explicit argument `now`. -/

/-- Python `str.lower` (ASCII range, which is all the source uses). -/
def lowerStr (s : String) : String :=
  ⟨s.data.map Char.toLower⟩

/-- Characters kept by `re.sub(r'[^a-zA-Z0-9_-]', '', ...)`. -/
def keepChar (c : Char) : Bool :=
  ('a' ≤ c && c ≤ 'z') || ('A' ≤ c && c ≤ 'Z') || ('0' ≤ c && c ≤ '9') ||
    c = '_' || c = '-'

/-- `re.sub(r'[^a-zA-Z0-9_-]', '', s)`. -/
def sanitize (s : String) : String :=
  ⟨s.data.filter keepChar⟩

/-- Fuel-driven core of Python `str.replace`: replaces non-overlapping
occurrences left to right. -/
def replaceListAux (pat rep : List Char) : Nat → List Char → List Char
  | 0, l => l
  | _ + 1, [] => []
  | fuel + 1, c :: cs =>
    if pat.isPrefixOf (c :: cs) && !pat.isEmpty then
      rep ++ replaceListAux pat rep fuel ((c :: cs).drop pat.length)
    else
      c :: replaceListAux pat rep fuel cs

/-- Python `s.replace(pat, rep)`. -/
def replaceStr (s pat rep : String) : String :=
  ⟨replaceListAux pat.data rep.data s.data.length s.data⟩

/-- Python `pat in s` for strings (substring test). -/
def containsSlice (pat : List Char) : List Char → Bool
  | [] => pat.isEmpty
  | c :: cs => pat.isPrefixOf (c :: cs) || containsSlice pat cs

/-- Python `'{year}' in tpl`. -/
def hasYearTpl (tpl : String) : Bool :=
  containsSlice "{year}".data tpl.data

/-- `naming_config`: the keys read via `.get` in converter.py lines 445-477,
with the same defaults.  `prefix_tpl` and `suffix_tpl` model the dict entries
table_prefix and table_suffix; the empty string models a missing (falsy) key,
exactly as Python truthiness treats it. -/
structure NamingConfig where
  lowercase_names : Bool := true
  prefix_tpl : String := ""
  suffix_tpl : String := ""
  use_timestamp : Bool := false
  replace_spaces : Bool := true
  remove_special_chars : Bool := true
deriving DecidableEq, Repr

/-- `FileConverter._generate_year_filename` (converter.py lines 415-485).
`cfg? = none` models a `None` or empty `naming_config`; `now` is the
`datetime.now().strftime("_%Y%m%d_%H%M%S")` string of the moment of the call. -/
def generate_year_filename (table_name : String) (year : Int)
    (output_format : String) (cfg? : Option NamingConfig) (now : String) :
    String :=
  match cfg? with
  | none =>
    if output_format = "sqlite" then table_name ++ "_" ++ toString year ++ ".db"
    else table_name ++ "_" ++ toString year ++ "." ++ output_format
  | some cfg =>
    let base0 := if cfg.lowercase_names then lowerStr table_name else table_name
    let base1 :=
      if cfg.prefix_tpl ≠ "" then
        (if hasYearTpl cfg.prefix_tpl then
           replaceStr cfg.prefix_tpl "{year}" (toString year)
         else cfg.prefix_tpl) ++ base0
      else base0 ++ "-" ++ toString year
    let base2 :=
      if cfg.suffix_tpl ≠ "" then
        base1 ++
          (if hasYearTpl cfg.suffix_tpl then
             replaceStr cfg.suffix_tpl "{year}" (toString year)
           else cfg.suffix_tpl)
      else base1
    let base3 := if cfg.use_timestamp then base2 ++ now else base2
    let base4 := if cfg.replace_spaces then replaceStr base3 " " "_" else base3
    let base5 := if cfg.remove_special_chars then sanitize base4 else base4
    let ext := if output_format = "sqlite" then "db" else output_format
    base5 ++ "." ++ ext

example : generate_year_filename "Ventas" 2008 "sql" none "" = "Ventas_2008.sql" := by decide

example :
    generate_year_filename "Sales" 2020 "sql"
      (some { prefix_tpl := "hist-{year}-" }) ""
    = "hist-2020-sales.sql" := by decide

/-! ## Helper lemmas on decimal string representations

Used to show that the report keys `f"{table}_{year}"` and the default
artifact names `f"{table}_{year}.{fmt}"` never collide. -/

/-- Numeric value of a decimal digit character. -/
def charVal (c : Char) : Nat := c.toNat - '0'.toNat

theorem charVal_digitChar (m : Nat) (h : m < 10) : charVal (Nat.digitChar m) = m := by
  interval_cases m <;> rfl

theorem digitChar_ne_marks (m : Nat) (h : m < 10) :
    Nat.digitChar m ≠ '_' ∧ Nat.digitChar m ≠ '-' := by
  interval_cases m <;> exact ⟨by decide, by decide⟩

theorem toDigitsCore_append (b fuel n : Nat) (ds : List Char) :
    Nat.toDigitsCore b fuel n ds = Nat.toDigitsCore b fuel n [] ++ ds := by
  induction fuel generalizing n ds with
  | zero => simp [Nat.toDigitsCore]
  | succ f ih =>
    simp only [Nat.toDigitsCore]
    by_cases h : n / b = 0
    · simp [h]
    · rw [if_neg h, if_neg h, ih (n / b) (Nat.digitChar (n % b) :: ds),
        ih (n / b) [Nat.digitChar (n % b)], List.append_assoc]
      rfl

/-- Decimal value of a digit-character list, most significant first. -/
def valOfDigits (l : List Char) : Nat :=
  l.foldl (fun a c => a * 10 + charVal c) 0

theorem valOfDigits_append_singleton (l : List Char) (c : Char) :
    valOfDigits (l ++ [c]) = valOfDigits l * 10 + charVal c := by
  simp [valOfDigits, List.foldl_append]

theorem valOfDigits_toDigitsCore (fuel n : Nat) (h : n < fuel) :
    valOfDigits (Nat.toDigitsCore 10 fuel n []) = n := by
  induction fuel generalizing n with
  | zero => omega
  | succ f ih =>
    simp only [Nat.toDigitsCore]
    by_cases h0 : n / 10 = 0
    · have hn : n < 10 := by omega
      rw [if_pos h0]
      have hmod : n % 10 = n := Nat.mod_eq_of_lt hn
      simp [valOfDigits, hmod, charVal_digitChar n hn]
    · have hge : 10 ≤ n := by omega
      have hlt : n / 10 < n := Nat.div_lt_self (by omega) (by omega)
      rw [if_neg h0, toDigitsCore_append, valOfDigits_append_singleton,
        ih (n / 10) (by omega), charVal_digitChar (n % 10) (Nat.mod_lt n (by omega))]
      omega

theorem toDigitsCore_ne_nil (f n : Nat) (ds : List Char) :
    Nat.toDigitsCore 10 (f + 1) n ds ≠ [] := by
  simp only [Nat.toDigitsCore]
  by_cases h0 : n / 10 = 0
  · simp [h0]
  · rw [if_neg h0, toDigitsCore_append]
    simp

theorem toDigitsCore_chars (fuel n : Nat) (c : Char)
    (h : c ∈ Nat.toDigitsCore 10 fuel n []) :
    ∃ m, m < 10 ∧ c = Nat.digitChar m := by
  induction fuel generalizing n with
  | zero => simp [Nat.toDigitsCore] at h
  | succ f ih =>
    simp only [Nat.toDigitsCore] at h
    by_cases h0 : n / 10 = 0
    · rw [if_pos h0] at h
      simp at h
      exact ⟨n % 10, Nat.mod_lt n (by omega), h⟩
    · rw [if_neg h0, toDigitsCore_append] at h
      rcases List.mem_append.mp h with h1 | h1
      · exact ih _ h1
      · simp at h1
        exact ⟨n % 10, Nat.mod_lt n (by omega), h1⟩

theorem natRepr_inj : Function.Injective Nat.repr := by
  intro a b h
  have hd : Nat.toDigits 10 a = Nat.toDigits 10 b := by
    have := congrArg String.data h
    simpa [Nat.repr, List.asString] using this
  have ha := valOfDigits_toDigitsCore (a + 1) a (by omega)
  have hb := valOfDigits_toDigitsCore (b + 1) b (by omega)
  simp only [Nat.toDigits] at hd
  rw [← ha, ← hb, hd]

theorem natRepr_chars (n : Nat) (c : Char) (h : c ∈ (Nat.repr n).data) :
    c ≠ '_' ∧ c ≠ '-' := by
  have hm : c ∈ Nat.toDigitsCore 10 (n + 1) n [] := by
    simpa [Nat.repr, Nat.toDigits, List.asString] using h
  obtain ⟨m, hlt, rfl⟩ := toDigitsCore_chars (n + 1) n c hm
  exact digitChar_ne_marks m hlt

theorem natRepr_ne_nil (n : Nat) : (Nat.repr n).data ≠ [] := by
  simpa [Nat.repr, Nat.toDigits, List.asString] using toDigitsCore_ne_nil n n []

theorem intToString_no_underscore (y : Int) (c : Char)
    (h : c ∈ (toString y).data) : c ≠ '_' := by
  have hrepr : toString y = Int.repr y := rfl
  rw [hrepr] at h
  cases y with
  | ofNat m => exact (natRepr_chars m c h).1
  | negSucc m =>
    have : c ∈ ("-" : String).data ++ (Nat.repr (m + 1)).data := by
      simpa [Int.repr, String.data_append] using h
    rcases List.mem_append.mp this with h1 | h1
    · simp at h1
      subst h1
      decide
    · exact (natRepr_chars (m + 1) c h1).1

theorem intToString_nonneg_no_dash (y : Int) (hy : 0 ≤ y) (c : Char)
    (h : c ∈ (toString y).data) : c ≠ '-' := by
  have hrepr : toString y = Int.repr y := rfl
  rw [hrepr] at h
  cases y with
  | ofNat m => exact (natRepr_chars m c h).2
  | negSucc m => exact absurd hy (by exact of_decide_eq_false rfl)

theorem intToString_inj : Function.Injective (fun y : Int => toString y) := by
  intro a b h
  have h2 : Int.repr a = Int.repr b := h
  cases a with
  | ofNat m =>
    cases b with
    | ofNat k => exact congrArg Int.ofNat (natRepr_inj h2)
    | negSucc k =>
      exfalso
      have hd := congrArg String.data h2
      simp only [Int.repr, String.data_append] at hd
      rcases hnil : (Nat.repr m).data with _ | ⟨c, rest⟩
      · exact natRepr_ne_nil m hnil
      · rw [hnil, List.singleton_append] at hd
        injection hd with hc _
        exact (natRepr_chars m c (hnil ▸ List.mem_cons_self c rest)).2 hc
  | negSucc m =>
    cases b with
    | ofNat k =>
      exfalso
      have hd := congrArg String.data h2
      simp only [Int.repr, String.data_append] at hd
      rcases hnil : (Nat.repr k).data with _ | ⟨c, rest⟩
      · exact natRepr_ne_nil k hnil
      · rw [hnil, List.singleton_append] at hd
        injection hd with hc _
        exact (natRepr_chars k c (hnil ▸ List.mem_cons_self c rest)).2 hc.symm
    | negSucc k =>
      have hd := congrArg String.data h2
      simp only [Int.repr, String.data_append] at hd
      have hdata : (Nat.repr (m + 1)).data = (Nat.repr (k + 1)).data := by
        simpa using hd
      have hmk : m + 1 = k + 1 := natRepr_inj (String.ext hdata)
      have : m = k := by omega
      exact congrArg Int.negSucc this

/-- Splitting a character list at a marker character that occurs in neither
tail determines both parts. -/
theorem split_on_marker (c : Char) :
    ∀ (l1 l2 s1 s2 : List Char), c ∉ s1 → c ∉ s2 →
      l1 ++ c :: s1 = l2 ++ c :: s2 → l1 = l2 ∧ s1 = s2 := by
  intro l1
  induction l1 with
  | nil =>
    intro l2 s1 s2 h1 h2 h
    cases l2 with
    | nil => simpa using h
    | cons d l2 =>
      exfalso
      simp only [List.nil_append, List.cons_append, List.cons.injEq] at h
      exact h1 (h.2 ▸ List.mem_append.mpr (Or.inr (List.mem_cons_self c s2)))
  | cons d l1 ih =>
    intro l2 s1 s2 h1 h2 h
    cases l2 with
    | nil =>
      exfalso
      simp only [List.cons_append, List.nil_append, List.cons.injEq] at h
      exact h2 (h.2.symm ▸ List.mem_append.mpr (Or.inr (List.mem_cons_self c s1)))
    | cons e l2 =>
      simp only [List.cons_append, List.cons.injEq] at h
      obtain ⟨rfl, h⟩ := h
      obtain ⟨rfl, rfl⟩ := ih l2 s1 s2 h1 h2 h
      exact ⟨rfl, rfl⟩

/-- The report key `f"{table}_{year}"` determines table and year. -/
theorem convKey_inj (t1 t2 : String) (y1 y2 : Int)
    (h : convKey t1 y1 = convKey t2 y2) : t1 = t2 ∧ y1 = y2 := by
  have hd : t1.data ++ '_' :: (toString y1).data
      = t2.data ++ '_' :: (toString y2).data := by
    have := congrArg String.data h
    simpa [convKey, String.data_append] using this
  have h1 : '_' ∉ (toString y1).data := fun hc => intToString_no_underscore y1 '_' hc rfl
  have h2 : '_' ∉ (toString y2).data := fun hc => intToString_no_underscore y2 '_' hc rfl
  obtain ⟨ht, hy⟩ := split_on_marker '_' t1.data t2.data _ _ h1 h2 hd
  exact ⟨String.ext ht, intToString_inj (String.ext hy)⟩

/-! ## Strategy chain lemmas -/

/-- A strategy attempt that does not end the chain: it raised, returned None,
or returned an empty frame (robust_access_reader.py lines 60-72). -/
def failsOrEmpty (m : Except String (Option DataFrame)) : Prop :=
  (∃ e, m = .error e) ∨ m = .ok none ∨ ∃ df, m = .ok (some df) ∧ df.isEmpty = true

theorem tryMethods_skip :
    ∀ (ms1 rest : List (Except String (Option DataFrame))) (le : Option String),
      (∀ m ∈ ms1, failsOrEmpty m) →
      ∃ le2, tryMethods (ms1 ++ rest) le = tryMethods rest le2 := by
  intro ms1
  induction ms1 with
  | nil => intro rest le _; exact ⟨le, rfl⟩
  | cons m ms ih =>
    intro rest le h
    have hm := h m (List.mem_cons_self m ms)
    have hms : ∀ m' ∈ ms, failsOrEmpty m' :=
      fun m' hm' => h m' (List.mem_cons_of_mem m hm')
    rcases hm with ⟨e, rfl⟩ | rfl | ⟨df, rfl, hdf⟩
    · simpa [tryMethods] using ih rest (some e) hms
    · simpa [tryMethods] using ih rest le hms
    · have hstep : tryMethods ((Except.ok (some df) :: ms) ++ rest) le
        = tryMethods (ms ++ rest) le := by
        simp [tryMethods, hdf]
      rw [hstep]
      exact ih rest le hms

theorem tryMethods_head_ok (df : DataFrame)
    (rest : List (Except String (Option DataFrame))) (le : Option String)
    (h : df.isEmpty = false) :
    tryMethods (Except.ok (some df) :: rest) le = .ok df := by
  simp [tryMethods, h]

theorem tryMethods_ok_isEmpty_false :
    ∀ (ms : List (Except String (Option DataFrame))) (le : Option String)
      (df : DataFrame), tryMethods ms le = .ok df → df.isEmpty = false := by
  intro ms
  induction ms with
  | nil => intro le df h; simp [tryMethods] at h
  | cons m ms ih =>
    intro le df h
    match m with
    | .error e => exact ih _ df (by simpa [tryMethods] using h)
    | .ok none => exact ih _ df (by simpa [tryMethods] using h)
    | .ok (some d) =>
      by_cases hd : d.isEmpty = true
      · exact ih _ df (by simpa [tryMethods, hd] using h)
      · have hok : (Except.ok d : Except String DataFrame) = Except.ok df := by
          simpa [tryMethods, hd] using h
        cases hok
        simpa using hd

/-! ## Shared concrete test environments used by witnesses -/

/-- A one-row test table with the year column. -/
def dfTest : DataFrame :=
  ⟨["N_ANIO", "v"], [[Cell.intVal 2008, Cell.textVal "a"]]⟩

/-- First test table of a two-table file. -/
def dfA : DataFrame := ⟨["c"], [[Cell.textVal "a1"]]⟩

/-- Second test table of a two-table file. -/
def dfB : DataFrame := ⟨["c"], [[Cell.textVal "b1"]]⟩

/-- Environment where mdb-tools is missing and pyodbc works. -/
def envMdbDown : ReaderEnv :=
  ⟨⟨false, [], fun _ => Except.error "sin mdb-tools"⟩,
   ⟨true, ["T"], fun _ => Except.ok dfTest⟩,
   ⟨false, [], fun _ => Except.error "sin sqlalchemy"⟩⟩

/-- Environment where both mdb-tools and pyodbc see the tables A and B. -/
def envBothUp : ReaderEnv :=
  ⟨⟨true, ["A", "B"], fun _ => Except.error "export falla"⟩,
   ⟨true, ["A", "B"], fun t => Except.ok (if t = "A" then dfA else dfB)⟩,
   ⟨false, [], fun _ => Except.error "sin sqlalchemy"⟩⟩

/-! ## Claims C5, C6, C7, C10 -/

/-- C5: strategies are tried in the fixed order of `readMethods`
(mdb-tools, pyodbc, SQLAlchemy, manual last); any run of leading strategies
that raise, are unavailable, or deliver an empty or missing frame is skipped
without being fatal, and the chain's result is exactly the frame of the first
strategy that returns a non-empty table (property P1: when A fails and B
succeeds, the chain equals B's direct result). -/
theorem read_chain_returns_first_nonempty_strategy
    (env : ReaderEnv) (file : FileInfo) (tableName : Option String)
    (ms1 ms2 : List (Except String (Option DataFrame)))
    (df : DataFrame)
    (hp : file.present = true) (hs : file.size ≠ 0)
    (hsplit : readMethods env tableName = ms1 ++ Except.ok (some df) :: ms2)
    (hfail : ∀ m ∈ ms1, failsOrEmpty m)
    (hne : df.isEmpty = false) :
    RobustAccessReader.read env file tableName = .ok df := by
  have hread : RobustAccessReader.read env file tableName
      = tryMethods (readMethods env tableName) none := by
    simp [RobustAccessReader.read, hp, hs]
  obtain ⟨le2, hskip⟩ := tryMethods_skip ms1 (Except.ok (some df) :: ms2) none hfail
  rw [hread, hsplit, hskip, tryMethods_head_ok df ms2 le2 hne]

/-- Witness for C5: mdb-tools is unavailable, pyodbc succeeds, and the chain
returns pyodbc's direct result. -/
theorem read_chain_returns_first_nonempty_strategy_witness :
    RobustAccessReader.read envMdbDown ⟨true, 7⟩ (some "T") = .ok dfTest :=
  read_chain_returns_first_nonempty_strategy envMdbDown ⟨true, 7⟩ (some "T")
    [tryMdbtools envMdbDown.mdb (some "T")]
    [trySqlalchemy envMdbDown.sqlalchemy (some "T"), tryManualConversion]
    dfTest rfl (by decide) rfl
    (by
      intro m hm
      have : m = tryMdbtools envMdbDown.mdb (some "T") := by simpa using hm
      subst this
      exact Or.inl ⟨"mdb-tools no está instalado", rfl⟩)
    (by decide)

/-- C6 counterexample: with two tables A and B and no table name, the
mdb-tools strategy does raise an error listing the tables, but the chain
swallows it and pyodbc silently defaults to the first table, so the overall
read succeeds with table A's data instead of failing with an ambiguous-table
error. -/
theorem read_no_table_name_counterexample :
    tryMdbtools envBothUp.mdb none = .error (ambiguousTableMsg ["A", "B"])
    ∧ RobustAccessReader.read envBothUp ⟨true, 9⟩ none = .ok dfA := by
  exact ⟨rfl, rfl⟩

/-- C6 amended: with no table name and at least two tables, the mdb-tools
strategy fails with an error listing the available table names; the chain
catches that failure and advances, and when pyodbc is available and reads its
first listed table successfully, the overall read returns that first table's
data instead of failing. -/
theorem read_no_table_name_defaults_to_first
    (env : ReaderEnv) (file : FileInfo) (a b : String) (rest : List String)
    (t0 : String) (ts : List String) (df : DataFrame)
    (hp : file.present = true) (hs : file.size ≠ 0)
    (hmdb : env.mdb.available = true) (htab : env.mdb.tables = a :: b :: rest)
    (hpy : env.pyodbc.available = true) (hpytab : env.pyodbc.tables = t0 :: ts)
    (hdata : env.pyodbc.data t0 = .ok df) (hne : df.isEmpty = false) :
    tryMdbtools env.mdb none = .error (ambiguousTableMsg (a :: b :: rest))
    ∧ RobustAccessReader.read env file none = .ok df := by
  have h1 : tryMdbtools env.mdb none = .error (ambiguousTableMsg (a :: b :: rest)) := by
    simp [tryMdbtools, hmdb, htab]
  refine ⟨h1, ?_⟩
  have h2 : tryPyodbc env.pyodbc none = .ok (some df) := by
    simp [tryPyodbc, hpy, hpytab, hdata, Except.map]
  have hread : RobustAccessReader.read env file none
      = tryMethods (readMethods env none) none := by
    simp [RobustAccessReader.read, hp, hs]
  rw [hread]
  show tryMethods
    [tryMdbtools env.mdb none, tryPyodbc env.pyodbc none,
     trySqlalchemy env.sqlalchemy none, tryManualConversion] none = .ok df
  rw [h1]
  simp only [tryMethods]
  rw [h2]
  simp [tryMethods, hne]

/-- Witness for the amended C6 theorem at the concrete two-table environment. -/
theorem read_no_table_name_defaults_to_first_witness :
    tryMdbtools envBothUp.mdb none = .error (ambiguousTableMsg ["A", "B"])
    ∧ RobustAccessReader.read envBothUp ⟨true, 9⟩ none = .ok dfA :=
  read_no_table_name_defaults_to_first envBothUp ⟨true, 9⟩ "A" "B" [] "A" ["B"]
    dfA rfl (by decide) rfl rfl rfl rfl rfl (by decide)

/-- C7: a missing source file fails immediately with the not-found error and a
zero-byte source file fails immediately with the empty-file error, whatever
the environment and requested table — no extraction strategy is consulted,
and a zero-size file is never an empty-table success. -/
theorem read_missing_or_empty_file_fails
    (env : ReaderEnv) (tableName : Option String) (sz : Nat) :
    RobustAccessReader.read env ⟨false, sz⟩ tableName = .error "El archivo no existe"
    ∧ RobustAccessReader.read env ⟨true, 0⟩ tableName = .error "El archivo está vacío" :=
  ⟨rfl, rfl⟩

/-- C10: whenever the reader returns normally, the returned table has at least
one row (an empty frame from any strategy only triggers fallback, and the
final strategy always raises). -/
theorem read_ok_implies_nonempty
    (env : ReaderEnv) (file : FileInfo) (tableName : Option String)
    (df : DataFrame)
    (h : RobustAccessReader.read env file tableName = .ok df) :
    df.rows ≠ [] := by
  simp only [RobustAccessReader.read] at h
  by_cases hp : file.present = true
  · rw [hp] at h
    simp only [Bool.not_true, Bool.false_eq_true, if_false] at h
    by_cases hs : file.size = 0
    · rw [if_pos hs] at h
      exact absurd h (by simp)
    · rw [if_neg hs] at h
      have hne := tryMethods_ok_isEmpty_false _ _ _ h
      simp only [DataFrame.isEmpty, Bool.or_eq_false_iff] at hne
      simpa [List.isEmpty_iff] using hne.1
  · have hp2 : file.present = false := by simpa using hp
    rw [hp2] at h
    exact absurd h (by simp)

/-- Witness for C10 at a concrete successful read. -/
theorem read_ok_implies_nonempty_witness :
    RobustAccessReader.read envMdbDown ⟨true, 7⟩ (some "T") = .ok dfTest
    ∧ dfTest.rows ≠ [] :=
  ⟨rfl, read_ok_implies_nonempty envMdbDown ⟨true, 7⟩ (some "T") dfTest rfl⟩

/-! ## Claim C9: temp-file lifecycle of the mdb-tools strategy -/

/-- Concrete mdb-tools run whose exported CSV fails to parse. -/
def mdbRunParseFail : MdbRunEnv := ⟨true, ["T"], false, .error "CSV corrupto"⟩

/-- Concrete mdb-tools run that succeeds end to end. -/
def mdbRunOk : MdbRunEnv := ⟨true, ["T"], false, .ok dfTest⟩

/-- C9 counterexample: when parsing the exported CSV raises, the call fails
and the temporary export file is left on disk (`os.unlink` on line 111 of
robust_access_reader.py is never reached; there is no try/finally), so the
temp file is not deleted on every failure path as claimed. -/
theorem mdbtools_temp_file_leak_counterexample :
    tryMdbtoolsFS mdbRunParseFail (some "T") [] 0
      = (.error "CSV corrupto", [0]) := by
  rfl

/-- C9 amended: the export goes to the fresh temporary file, which is deleted
on the success path; on the failure paths that occur after its creation (the
export subprocess failing, or the parse of the exported CSV raising) the
temporary file is left behind. -/
theorem mdbtools_temp_file_behavior (env : MdbRunEnv) (t : String)
    (st : List Nat) (fresh : Nat)
    (hav : env.available = true) (htab : env.tables.contains t = true) :
    (∀ df, env.exportFails = false → env.parseResult = .ok df →
       tryMdbtoolsFS env (some t) st fresh = (.ok df, st))
    ∧ (env.exportFails = true →
       tryMdbtoolsFS env (some t) st fresh
         = (.error "Error exportando tabla", fresh :: st))
    ∧ (∀ e, env.exportFails = false → env.parseResult = .error e →
       tryMdbtoolsFS env (some t) st fresh = (.error e, fresh :: st)) := by
  have hne : env.tables.isEmpty = false := by
    cases htabs : env.tables with
    | nil => rw [htabs] at htab; simp at htab
    | cons a l => rfl
  have htmem : t ∈ env.tables := by simpa using htab
  refine ⟨?_, ?_, ?_⟩
  · intro df hexp hparse
    simp [tryMdbtoolsFS, exportTableMdbtools, hav, hne, htab, htmem, hexp, hparse,
      List.erase_cons_head]
  · intro hexp
    simp [tryMdbtoolsFS, exportTableMdbtools, hav, hne, htab, htmem, hexp]
  · intro e hexp hparse
    simp [tryMdbtoolsFS, exportTableMdbtools, hav, hne, htab, htmem, hexp, hparse]

/-- Witness for the amended C9 theorem: the success path deletes the temp
file; the parse-failure path leaks it. -/
theorem mdbtools_temp_file_behavior_witness :
    tryMdbtoolsFS mdbRunOk (some "T") [] 0 = (.ok dfTest, [])
    ∧ tryMdbtoolsFS mdbRunParseFail (some "T") [] 0
        = (.error "CSV corrupto", [0]) :=
  ⟨(mdbtools_temp_file_behavior mdbRunOk "T" [] 0 rfl rfl).1 dfTest rfl rfl,
   ((mdbtools_temp_file_behavior mdbRunParseFail "T" [] 0 rfl rfl).2.2
     "CSV corrupto" rfl rfl)⟩

/-! ## Claim C1: the year summary -/

/-- C1: the year summary has exactly one entry per table; a table whose
extraction succeeds and whose year column exists gets its row count, column
count and the sorted duplicate-free list of exactly the years that parse in
the year column (nulls and unparseable values discarded); a failed extraction
or missing year column becomes a per-table error annotation inside the
summary instead of a raised error, leaving every other table's entry in
place. -/
theorem get_year_summary_correct
    (extract : String → Except String DataFrame) (tables : List String)
    (col : String) (t : String) (ht : t ∈ tables) :
    ((get_year_summary extract tables col).map Prod.fst = tables)
    ∧ (t, summarizeTable (extract t) col) ∈ get_year_summary extract tables col
    ∧ (∀ df i, extract t = .ok df → df.columns.indexOf? col = some i →
        summarizeTable (extract t) col
          = ⟨df.rows.length, df.columns.length, sortedYears df i, none⟩
        ∧ (sortedYears df i).Sorted (· ≤ ·)
        ∧ (sortedYears df i).Nodup
        ∧ (∀ y, y ∈ sortedYears df i ↔ ∃ r ∈ df.rows, rowYear r i = some y))
    ∧ (∀ e, extract t = .error e →
        summarizeTable (extract t) col = ⟨0, 0, [], some e⟩)
    ∧ (∀ df, extract t = .ok df → df.columns.indexOf? col = none →
        (summarizeTable (extract t) col).error.isSome = true) := by
  refine ⟨?_, ?_, ?_, ?_, ?_⟩
  · have hcomp : (Prod.fst ∘ fun u => (u, summarizeTable (extract u) col))
        = fun u : String => u := rfl
    rw [get_year_summary, List.map_map, hcomp, List.map_id']
  · exact List.mem_map.mpr ⟨t, ht, rfl⟩
  · intro df i hok hcol
    rw [hok]
    refine ⟨by simp [summarizeTable, hcol], ?_, ?_, ?_⟩
    · exact List.sorted_insertionSort (· ≤ ·) _
    · exact ((List.perm_insertionSort (· ≤ ·) _).nodup_iff).mpr
        (List.nodup_dedup _)
    · intro y
      rw [sortedYears, List.mem_insertionSort, List.mem_dedup, validYears,
        List.mem_filterMap]
  · intro e herr
    rw [herr]
    rfl
  · intro df hok hcol
    rw [hok]
    simp [summarizeTable, hcol]

/-- A concrete extraction oracle used by the year-engine witnesses: one table
with years 2008, 2009, 2008, one null and one out-of-range value, mirroring
Scenario A of the spec. -/
def extractTest : String → Except String DataFrame :=
  fun t =>
    if t = "SALES" then
      .ok ⟨["N_ANIO", "v"],
           [[Cell.intVal 2008, Cell.textVal "a"],
            [Cell.intVal 2009, Cell.textVal "b"],
            [Cell.intVal 2008, Cell.textVal "c"],
            [Cell.null, Cell.textVal "d"],
            [Cell.intVal 12, Cell.textVal "e"]]⟩
    else .error "Tabla no encontrada"

/-- The frame behind `extractTest "SALES"`. -/
def dfSales : DataFrame :=
  ⟨["N_ANIO", "v"],
   [[Cell.intVal 2008, Cell.textVal "a"],
    [Cell.intVal 2009, Cell.textVal "b"],
    [Cell.intVal 2008, Cell.textVal "c"],
    [Cell.null, Cell.textVal "d"],
    [Cell.intVal 12, Cell.textVal "e"]]⟩

/-- Witness for C1 on the Scenario A table: the summary entry carries
row_count 5, column_count 2 and available_years [2008, 2009]. -/
theorem get_year_summary_correct_witness :
    summarizeTable (extractTest "SALES") "N_ANIO" = ⟨5, 2, [2008, 2009], none⟩
    ∧ ("SALES", summarizeTable (extractTest "SALES") "N_ANIO")
        ∈ get_year_summary extractTest ["SALES", "OTRA"] "N_ANIO"
    ∧ (summarizeTable (extractTest "OTRA") "N_ANIO").error.isSome = true := by
  refine ⟨by decide, ?_, by decide⟩
  exact (get_year_summary_correct extractTest ["SALES", "OTRA"] "N_ANIO" "SALES"
    (by decide)).2.1

/-! ## Claim C2: the year-filtered read and partition completeness -/

/-- Partitioning a row list by the parsed key: binding the per-key filters
over a duplicate-free list of keys that covers every parseable row is a
permutation of the rows whose key parses. -/
theorem flatMap_filter_perm {α : Type} (f : α → Option Int) :
    ∀ (ys : List Int) (rows : List α), ys.Nodup →
      (∀ r ∈ rows, ∀ y, f r = some y → y ∈ ys) →
      ((ys.flatMap (fun y => rows.filter (fun r => f r == some y))).Perm
        (rows.filter (fun r => (f r).isSome))) := by
  intro ys
  induction ys with
  | nil =>
    intro rows _ hcov
    have hnil : rows.filter (fun r => (f r).isSome) = [] := by
      apply List.filter_eq_nil_iff.mpr
      intro r hr hsome
      obtain ⟨y, hy⟩ := Option.isSome_iff_exists.mp hsome
      exact absurd (hcov r hr y hy) (List.not_mem_nil y)
    simp [hnil]
  | cons y ys ih =>
    intro rows hnd hcov
    have hy_not : y ∉ ys := (List.nodup_cons.mp hnd).1
    have hnd2 : ys.Nodup := (List.nodup_cons.mp hnd).2
    have hcongr : ∀ y2 ∈ ys, rows.filter (fun r => f r == some y2)
        = (rows.filter (fun r => !(f r == some y))).filter
            (fun r => f r == some y2) := by
      intro y2 hy2
      rw [List.filter_filter]
      apply List.filter_congr
      intro r _
      by_cases h : f r = some y2
      · have hne : y2 ≠ y := fun hc => hy_not (hc ▸ hy2)
        simp [h, hne]
      · have hb : (f r == some y2) = false := by
          simpa using h
        simp [hb]
    have hcov2 : ∀ r ∈ rows.filter (fun r => !(f r == some y)),
        ∀ y2, f r = some y2 → y2 ∈ ys := by
      intro r hr y2 hf
      have hr2 := List.mem_filter.mp hr
      rcases List.mem_cons.mp (hcov r hr2.1 y2 hf) with rfl | h
      · exfalso
        have := hr2.2
        rw [hf] at this
        simp at this
      · exact h
    have hperm := ih (rows.filter (fun r => !(f r == some y))) hnd2 hcov2
    have hbind : ys.flatMap (fun y2 => rows.filter (fun r => f r == some y2))
        = ys.flatMap (fun y2 => (rows.filter (fun r => !(f r == some y))).filter
            (fun r => f r == some y2)) :=
      List.flatMap_congr hcongr
    have hA : (rows.filter (fun r => (f r).isSome)).filter
        (fun r => f r == some y) = rows.filter (fun r => f r == some y) := by
      rw [List.filter_filter]
      apply List.filter_congr
      intro r _
      by_cases h : f r = some y
      · simp [h]
      · have hb : (f r == some y) = false := by simpa using h
        simp [hb]
    have hB : (rows.filter (fun r => (f r).isSome)).filter
        (fun r => !(f r == some y))
        = (rows.filter (fun r => !(f r == some y))).filter
            (fun r => (f r).isSome) := by
      rw [List.filter_filter, List.filter_filter]
      apply List.filter_congr
      intro r _
      exact Bool.and_comm _ _
    have hsplit := List.filter_append_perm
      (fun r => f r == some y) (rows.filter (fun r => (f r).isSome))
    rw [hA, hB] at hsplit
    rw [List.flatMap_cons, hbind]
    exact (hperm.append_left _).trans hsplit

/-- C2: the year-filtered read returns exactly the rows of the full table
whose year-column value parses to the requested year (an empty table, not an
error, when none match), and the reads over the summary's available years
together reconstruct, up to order, exactly the rows with a parseable year —
rows with unparseable year values appear in no partition. -/
theorem read_by_year_partitions
    (extract : String → Except String DataFrame) (t col : String)
    (df : DataFrame) (i : Nat)
    (hok : extract t = .ok df) (hcol : df.columns.indexOf? col = some i) :
    (∀ year : Int, read_by_year extract t year col
        = .ok ⟨df.columns, df.rows.filter (fun r => rowYear r i == some year)⟩)
    ∧ (∀ (year : Int) (r : List Cell), r ∈ df.rows →
        (r ∈ df.rows.filter (fun r => rowYear r i == some year)
          ↔ rowYear r i = some year))
    ∧ (∀ year : Int, (∀ r ∈ df.rows, rowYear r i ≠ some year) →
        read_by_year extract t year col = .ok ⟨df.columns, []⟩)
    ∧ ((sortedYears df i).flatMap
        (fun y => df.rows.filter (fun r => rowYear r i == some y))).Perm
        (df.rows.filter (fun r => (rowYear r i).isSome)) := by
  have hread : ∀ year : Int, read_by_year extract t year col
      = .ok ⟨df.columns, df.rows.filter (fun r => rowYear r i == some year)⟩ := by
    intro year
    simp only [read_by_year, hok, hcol]
  refine ⟨hread, ?_, ?_, ?_⟩
  · intro year r hr
    rw [List.mem_filter]
    constructor
    · intro h
      exact beq_iff_eq.mp h.2
    · intro h
      exact ⟨hr, beq_iff_eq.mpr h⟩
  · intro year hnone
    rw [hread year]
    have : df.rows.filter (fun r => rowYear r i == some year) = [] := by
      apply List.filter_eq_nil_iff.mpr
      intro r hr hbeq
      exact hnone r hr (beq_iff_eq.mp hbeq)
    rw [this]
  · apply flatMap_filter_perm (fun r => rowYear r i)
    · exact ((List.perm_insertionSort (· ≤ ·) _).nodup_iff).mpr (List.nodup_dedup _)
    · intro r hr y hy
      rw [sortedYears, List.mem_insertionSort, List.mem_dedup, validYears,
        List.mem_filterMap]
      exact ⟨r, hr, hy⟩

/-- Witness for C2 on the Scenario A table: the 2008 partition has exactly
the two 2008 rows, a year with no rows gives an empty table, and the union of
the 2008 and 2009 partitions has the 3 rows with parseable years (out of 5). -/
theorem read_by_year_partitions_witness :
    read_by_year extractTest "SALES" 2008 "N_ANIO"
      = .ok ⟨["N_ANIO", "v"],
             [[Cell.intVal 2008, Cell.textVal "a"],
              [Cell.intVal 2008, Cell.textVal "c"]]⟩
    ∧ read_by_year extractTest "SALES" 1999 "N_ANIO" = .ok ⟨["N_ANIO", "v"], []⟩
    ∧ ((sortedYears dfSales 0).flatMap
        (fun y => dfSales.rows.filter (fun r => rowYear r 0 == some y))).Perm
        (dfSales.rows.filter (fun r => (rowYear r 0).isSome)) := by
  have h := read_by_year_partitions extractTest "SALES" "N_ANIO" dfSales 0
    rfl (by decide)
  refine ⟨?_, ?_, h.2.2.2⟩
  · rw [h.1 2008]
    rfl
  · rw [h.2.2.1 1999 (by decide)]
    rfl

/-! ## Claims C3 and C4: batch report completeness and empty-partition policy -/

/-- Every branch of `process_single_year` keys its entry by
`f"{table_name}_{year}"`. -/
theorem process_single_year_key (readF : String → Int → Except String DataFrame)
    (writeF : String → Int → Except String Nat) (fname : String → Int → String)
    (t : String) (y : Int) :
    (process_single_year readF writeF fname t y).1 = convKey t y := by
  unfold process_single_year
  cases readF t y with
  | error e => rfl
  | ok df =>
    by_cases h : df.isEmpty = true
    · simp [h]
    · rw [Bool.not_eq_true] at h
      cases writeF t y with
      | error e => simp [h]
      | ok sz => simp [h]

/-- Folding dict assignment over entries with pairwise-fresh keys appends each
entry exactly once. -/
theorem foldl_insertConv_fresh :
    ∀ (ps acc : List (String × ConvEntry)),
      (((acc ++ ps).map Prod.fst)).Nodup →
      ps.foldl (fun a p => insertConv a p.1 p.2) acc = acc ++ ps := by
  intro ps
  induction ps with
  | nil => intro acc _; simp
  | cons p ps ih =>
    intro acc hnd
    have h2 : (List.map Prod.fst acc ++ List.map Prod.fst (p :: ps)).Nodup := by
      simpa [List.map_append] using hnd
    have hfresh : ¬ ((acc.map Prod.fst).contains p.1 = true) := by
      intro hc
      have hmem : p.1 ∈ acc.map Prod.fst := by simpa using hc
      have hdisj := (List.nodup_append.mp h2).2.2
      exact (hdisj hmem) (by simp)
    have hstep : insertConv acc p.1 p.2 = acc ++ [p] := by
      rw [insertConv, if_neg hfresh]
    rw [List.foldl_cons, hstep, ih (acc ++ [p])
      (by simpa [List.append_assoc] using hnd)]
    simp

/-- The keys generated from the job list are pairwise distinct when the
summary's table names are distinct and each table's year list is
duplicate-free. -/
theorem enumerateJobs_keys_nodup (summary : List (String × TableSummary))
    (hkeys : (summary.map Prod.fst).Nodup)
    (hyears : ∀ p ∈ summary, p.2.available_years.Nodup) :
    ((enumerateJobs summary).map (fun j => convKey j.1 j.2)).Nodup := by
  rw [enumerateJobs, List.map_flatMap]
  rw [List.nodup_flatMap]
  constructor
  · intro p hp
    by_cases he : p.2.error.isSome = true
    · simp [he]
    · by_cases hy : p.2.available_years.isEmpty = true
      · simp [he, hy]
      · have : (fun j : String × Int => convKey j.1 j.2) ∘ (fun y => (p.1, y))
            = fun y => convKey p.1 y := rfl
        simp only [he, hy, Bool.false_eq_true, if_false, List.map_map, this]
        apply List.Nodup.map
        · intro y1 y2 hk
          exact (convKey_inj p.1 p.1 y1 y2 hk).2
        · exact hyears p hp
  · have hpair : summary.Pairwise (fun a b => a.1 ≠ b.1) :=
      List.pairwise_map.mp hkeys
    apply hpair.imp
    intro a b hne
    intro k hka hkb
    have hmem : ∀ (q : String × TableSummary),
        k ∈ (if q.2.error.isSome then []
             else if q.2.available_years.isEmpty then []
             else q.2.available_years.map (fun y => (q.1, y))).map
               (fun j : String × Int => convKey j.1 j.2) →
        ∃ y : Int, k = convKey q.1 y := by
      intro q hkq
      by_cases he : q.2.error.isSome = true
      · simp [he] at hkq
      · by_cases hy : q.2.available_years.isEmpty = true
        · simp [he, hy] at hkq
        · simp only [he, hy, Bool.false_eq_true, if_false, List.map_map,
            List.mem_map] at hkq
          obtain ⟨y, _, hk⟩ := hkq
          exact ⟨y, hk.symm⟩
    obtain ⟨y1, hk1⟩ := hmem a hka
    obtain ⟨y2, hk2⟩ := hmem b hkb
    exact hne (convKey_inj a.1 b.1 y1 y2 (hk1 ▸ hk2 ▸ rfl)).1

/-- Core of C3, over an arbitrary summary whose table names are distinct and
whose per-table year lists are duplicate-free: the report is exactly one
entry per enumerated job. -/
theorem batch_report_general (summary : List (String × TableSummary))
    (readF : String → Int → Except String DataFrame)
    (writeF : String → Int → Except String Nat)
    (fname : String → Int → String)
    (hkeys : (summary.map Prod.fst).Nodup)
    (hyears : ∀ p ∈ summary, p.2.available_years.Nodup) :
    runJobs readF writeF fname (enumerateJobs summary)
      = (enumerateJobs summary).map
          (fun j => process_single_year readF writeF fname j.1 j.2)
    ∧ (runJobs readF writeF fname (enumerateJobs summary)).length
        = (enumerateJobs summary).length
    ∧ ∀ j ∈ enumerateJobs summary,
        (convKey j.1 j.2, (process_single_year readF writeF fname j.1 j.2).2)
          ∈ runJobs readF writeF fname (enumerateJobs summary) := by
  have hmapkeys : ((enumerateJobs summary).map
      (fun j => process_single_year readF writeF fname j.1 j.2)).map Prod.fst
      = (enumerateJobs summary).map (fun j => convKey j.1 j.2) := by
    rw [List.map_map]
    apply List.map_congr_left
    intro j _
    exact process_single_year_key readF writeF fname j.1 j.2
  have hnd : (((enumerateJobs summary).map
      (fun j => process_single_year readF writeF fname j.1 j.2)).map
        Prod.fst).Nodup := by
    rw [hmapkeys]
    exact enumerateJobs_keys_nodup summary hkeys hyears
  have hmain : runJobs readF writeF fname (enumerateJobs summary)
      = (enumerateJobs summary).map
          (fun j => process_single_year readF writeF fname j.1 j.2) := by
    rw [runJobs, ← List.foldl_map
      (fun j => process_single_year readF writeF fname j.1 j.2)
      (fun a p => insertConv a p.1 p.2) (enumerateJobs summary) []]
    exact foldl_insertConv_fresh _ [] (by simpa using hnd)
  refine ⟨hmain, by rw [hmain, List.length_map], ?_⟩
  intro j hj
  rw [hmain]
  apply List.mem_map.mpr
  refine ⟨j, hj, ?_⟩
  have hk := process_single_year_key readF writeF fname j.1 j.2
  rw [← hk]

/-- The summary maps each queried table name to its entry, in order. -/
theorem get_year_summary_map_fst (extract : String → Except String DataFrame)
    (tables : List String) (col : String) :
    (get_year_summary extract tables col).map Prod.fst = tables := by
  have hcomp : (Prod.fst ∘ fun u => (u, summarizeTable (extract u) col))
      = fun u : String => u := rfl
  rw [get_year_summary, List.map_map, hcomp, List.map_id']

/-- Every summary entry's year list is duplicate-free. -/
theorem summarizeTable_years_nodup (ex : Except String DataFrame) (col : String) :
    (summarizeTable ex col).available_years.Nodup := by
  cases ex with
  | error e => exact List.nodup_nil
  | ok df =>
    cases h : df.columns.indexOf? col with
    | none => simp [summarizeTable, h]
    | some i =>
      simp only [summarizeTable, h]
      exact ((List.perm_insertionSort (· ≤ ·) _).nodup_iff).mpr
        (List.nodup_dedup _)

/-- C3: the batch report contains exactly one entry per (table, year) job
enumerated from the year summary at job start (tables with a summary error or
an empty year list contribute none); entries are never dropped whatever each
job's outcome, because every job — including every failing job, whose
exception becomes its error entry — lands under its own distinct
`f"{table}_{year}"` key. -/
theorem batch_report_complete (extract : String → Except String DataFrame)
    (tables : List String) (col : String)
    (readF : String → Int → Except String DataFrame)
    (writeF : String → Int → Except String Nat)
    (fname : String → Int → String)
    (htab : tables.Nodup) :
    runJobs readF writeF fname (enumerateJobs (get_year_summary extract tables col))
      = (enumerateJobs (get_year_summary extract tables col)).map
          (fun j => process_single_year readF writeF fname j.1 j.2)
    ∧ (runJobs readF writeF fname
        (enumerateJobs (get_year_summary extract tables col))).length
        = (enumerateJobs (get_year_summary extract tables col)).length
    ∧ ∀ j ∈ enumerateJobs (get_year_summary extract tables col),
        (convKey j.1 j.2, (process_single_year readF writeF fname j.1 j.2).2)
          ∈ runJobs readF writeF fname
              (enumerateJobs (get_year_summary extract tables col)) := by
  have hkeys : ((get_year_summary extract tables col).map Prod.fst).Nodup := by
    rw [get_year_summary_map_fst]
    exact htab
  have hyears : ∀ p ∈ get_year_summary extract tables col,
      p.2.available_years.Nodup := by
    intro p hp
    rw [get_year_summary] at hp
    obtain ⟨u, _, rfl⟩ := List.mem_map.mp hp
    exact summarizeTable_years_nodup (extract u) col
  exact batch_report_general (get_year_summary extract tables col)
    readF writeF fname hkeys hyears

/-- Summary used by the orchestrator witnesses: SALES with years 2008 and
2009, OTRA with a per-table error (so it contributes no jobs). -/
def summaryW : List (String × TableSummary) :=
  get_year_summary extractTest ["SALES", "OTRA"] "N_ANIO"

/-- Witness for C3: two jobs are enumerated and the report has exactly the
two corresponding entries even though one of the jobs fails at write time. -/
theorem batch_report_complete_witness :
    enumerateJobs summaryW = [("SALES", 2008), ("SALES", 2009)]
    ∧ (runJobs (fun t y => read_by_year extractTest t y "N_ANIO")
        (fun _ y => if y = 2009 then Except.error "fallo del writer" else Except.ok 10)
        (fun t y => generate_year_filename t y "sql" none "")
        (enumerateJobs summaryW)).length
      = (enumerateJobs summaryW).length := by
  refine ⟨by decide, ?_⟩
  exact (batch_report_complete extractTest ["SALES", "OTRA"] "N_ANIO"
    (fun t y => read_by_year extractTest t y "N_ANIO")
    (fun _ y => if y = 2009 then Except.error "fallo del writer" else Except.ok 10)
    (fun t y => generate_year_filename t y "sql" none "")
    (by decide)).2.1

/-- C4: a job whose year-filtered read comes back empty is recorded as an
error entry with reason Sin datos, zero rows and no output artifact (the
writer and the filename generator are never consulted); sibling jobs still
run and get their own entries; and entries whose status is not success
contribute nothing to the aggregate totals. -/
theorem empty_partition_policy
    (readF : String → Int → Except String DataFrame)
    (writeF : String → Int → Except String Nat)
    (fname : String → Int → String) (t : String) (y : Int) (df : DataFrame)
    (hread : readF t y = .ok df) (hempty : df.isEmpty = true) :
    process_single_year readF writeF fname t y
      = (convKey t y, ⟨t, y, "error", some "Sin datos", 0, 0, none, 0⟩)
    ∧ (∀ (writeF2 : String → Int → Except String Nat)
        (fname2 : String → Int → String),
        process_single_year readF writeF2 fname2 t y
          = process_single_year readF writeF fname t y)
    ∧ (∀ (convs : List (String × ConvEntry)) (k : String) (e : ConvEntry),
        e.status ≠ "success" →
        total_rows_converted (convs ++ [(k, e)]) = total_rows_converted convs
        ∧ total_files_created (convs ++ [(k, e)]) = total_files_created convs
        ∧ total_size (convs ++ [(k, e)]) = total_size convs)
    ∧ (∀ (t2 : String) (y2 : Int), convKey t y ≠ convKey t2 y2 →
        runJobs readF writeF fname [(t, y), (t2, y2)]
          = [(convKey t y, errorEntry t y "Sin datos"),
             process_single_year readF writeF fname t2 y2]) := by
  have h1 : ∀ (w : String → Int → Except String Nat) (n : String → Int → String),
      process_single_year readF w n t y
        = (convKey t y, errorEntry t y "Sin datos") := by
    intro w n
    simp [process_single_year, hread, hempty]
  refine ⟨by rw [h1 writeF fname]; rfl, ?_, ?_, ?_⟩
  · intro writeF2 fname2
    rw [h1 writeF2 fname2, h1 writeF fname]
  · intro convs k e hstat
    have hfilt : (e.status == "success") = false := by
      simpa using hstat
    have hsucc : successEntries (convs ++ [(k, e)]) = successEntries convs := by
      rw [successEntries, List.filter_append]
      simp [hfilt, successEntries]
    exact ⟨by simp only [total_rows_converted, hsucc],
           by simp only [total_files_created, hsucc],
           by simp only [total_size, hsucc]⟩
  · intro t2 y2 hkne
    rw [runJobs, List.foldl_cons, List.foldl_cons, List.foldl_nil]
    rw [h1 writeF fname]
    have hc1 : insertConv [] (convKey t y) (errorEntry t y "Sin datos")
        = [(convKey t y, errorEntry t y "Sin datos")] := by
      rw [insertConv]
      rfl
    rw [hc1]
    have hk2 := process_single_year_key readF writeF fname t2 y2
    have hcontains : (([(convKey t y, errorEntry t y "Sin datos")].map
        Prod.fst).contains (process_single_year readF writeF fname t2 y2).1)
        = false := by
      rw [hk2]
      simp only [List.map_cons, List.map_nil, List.contains_cons,
        List.contains_nil, Bool.or_false]
      exact beq_eq_false_iff_ne.mpr (fun hc => hkne hc.symm)
    rw [insertConv, hcontains]
    simp

/-- Witness for C4: an empty read for (SALES, 1999) yields the Sin datos
error entry with no artifact. -/
theorem empty_partition_policy_witness :
    process_single_year (fun _ _ => Except.ok (⟨["N_ANIO", "v"], []⟩ : DataFrame))
      (fun _ _ => Except.ok 10)
      (fun t y => generate_year_filename t y "sql" none "") "SALES" 1999
      = (convKey "SALES" 1999,
         ⟨"SALES", 1999, "error", some "Sin datos", 0, 0, none, 0⟩) :=
  (empty_partition_policy (fun _ _ => Except.ok (⟨["N_ANIO", "v"], []⟩ : DataFrame))
    (fun _ _ => Except.ok 10)
    (fun t y => generate_year_filename t y "sql" none "") "SALES" 1999
    ⟨["N_ANIO", "v"], []⟩ rfl rfl).1

/-! ## Claim C8: the naming function -/

/-- Cancelling an equal tail and splitting at a marker absent from the two
middle parts determines head and middle. -/
theorem append_marker_cancel (c : Char) (t1 t2 r1 r2 e : List Char)
    (h1 : c ∉ r1) (h2 : c ∉ r2)
    (h : (t1 ++ c :: r1) ++ e = (t2 ++ c :: r2) ++ e) : t1 = t2 ∧ r1 = r2 :=
  split_on_marker c t1 t2 r1 r2 h1 h2 (List.append_cancel_right h)

/-- Character-level shape of the default artifact name
`f"{table_name}_{year}.{ext}"`. -/
theorem default_name_data (t : String) (y : Int) (fmt now : String) :
    (generate_year_filename t y fmt none now).data
      = (t.data ++ '_' :: (toString y).data)
          ++ ('.' :: (if fmt = "sqlite" then "db" else fmt).data) := by
  have hu : ("_" : String).data = ['_'] := rfl
  have hdb : (".db" : String).data = ['.', 'd', 'b'] := rfl
  have hdot : ("." : String).data = ['.'] := rfl
  rw [generate_year_filename]
  by_cases hf : fmt = "sqlite"
  · rw [if_pos hf, if_pos hf]
    simp [String.data_append, hu, hdb]
  · rw [if_neg hf, if_neg hf]
    simp [String.data_append, hu, hdot]

/-- Character-level shape of the artifact name under a configuration that
applies no case folding, no space replacement, no character stripping, no
timestamp, and whose templates do not mention the year placeholder. -/
theorem plain_name_data (t : String) (y : Int) (fmt now : String)
    (cfg : NamingConfig)
    (hl : cfg.lowercase_names = false) (hts : cfg.use_timestamp = false)
    (hrs : cfg.replace_spaces = false) (hrc : cfg.remove_special_chars = false)
    (hpy : hasYearTpl cfg.prefix_tpl = false)
    (hsy : hasYearTpl cfg.suffix_tpl = false) :
    (generate_year_filename t y fmt (some cfg) now).data
      = (if cfg.prefix_tpl = "" then t.data ++ '-' :: (toString y).data
         else cfg.prefix_tpl.data ++ t.data)
        ++ (cfg.suffix_tpl.data
            ++ ('.' :: (if fmt = "sqlite" then "db" else fmt).data)) := by
  have hdash : ("-" : String).data = ['-'] := rfl
  have hdot : ("." : String).data = ['.'] := rfl
  rw [generate_year_filename]
  by_cases hp : cfg.prefix_tpl = "" <;>
    by_cases hs : cfg.suffix_tpl = "" <;>
      by_cases hf : fmt = "sqlite" <;>
        simp [hl, hts, hrs, hrc, hpy, hsy, hp, hs, hf, String.data_append,
          hdash, hdot]

/-- C8 counterexample: with `use_timestamp` enabled, two calls with identical
table, year, output format and naming configuration give different names at
different clock instants, so the artifact name is not a function of those
four arguments alone. -/
theorem generate_year_filename_depends_on_clock :
    generate_year_filename "ventas" 2008 "sql"
        (some ⟨true, "", "", true, true, true⟩) "_20240101_120000"
      ≠ generate_year_filename "ventas" 2008 "sql"
        (some ⟨true, "", "", true, true, true⟩) "_20240101_120001" := by
  decide

/-- C8 amended: the artifact name is a deterministic, side-effect-free
function of table, year, format, configuration and — only when the
configuration enables the timestamp suffix — the current clock; with the
timestamp disabled (or no configuration) it depends on the four arguments
alone; and under the default configuration, or any configuration without
case folding, space replacement, character stripping, timestamp, or a year
placeholder in its templates (given non-negative years), distinct
(table, year) pairs get distinct names. -/
theorem generate_year_filename_deterministic_and_injective :
    (∀ (t : String) (y : Int) (fmt : String) (cfg : NamingConfig)
        (now1 now2 : String), cfg.use_timestamp = false →
        generate_year_filename t y fmt (some cfg) now1
          = generate_year_filename t y fmt (some cfg) now2)
    ∧ (∀ (t : String) (y : Int) (fmt now1 now2 : String),
        generate_year_filename t y fmt none now1
          = generate_year_filename t y fmt none now2)
    ∧ (∀ (t1 t2 : String) (y1 y2 : Int) (fmt now : String),
        t1 ≠ t2 → y1 ≠ y2 →
        generate_year_filename t1 y1 fmt none now
          ≠ generate_year_filename t2 y2 fmt none now)
    ∧ (∀ (t1 t2 : String) (y1 y2 : Int) (fmt now : String) (cfg : NamingConfig),
        cfg.lowercase_names = false → cfg.use_timestamp = false →
        cfg.replace_spaces = false → cfg.remove_special_chars = false →
        hasYearTpl cfg.prefix_tpl = false → hasYearTpl cfg.suffix_tpl = false →
        0 ≤ y1 → 0 ≤ y2 → t1 ≠ t2 → y1 ≠ y2 →
        generate_year_filename t1 y1 fmt (some cfg) now
          ≠ generate_year_filename t2 y2 fmt (some cfg) now) := by
  refine ⟨?_, ?_, ?_, ?_⟩
  · intro t y fmt cfg now1 now2 h
    simp [generate_year_filename, h]
  · intro t y fmt now1 now2
    rfl
  · intro t1 t2 y1 y2 fmt now ht _ h
    have hd := congrArg String.data h
    rw [default_name_data, default_name_data] at hd
    have h1 : '_' ∉ (toString y1).data :=
      fun hc => intToString_no_underscore y1 '_' hc rfl
    have h2 : '_' ∉ (toString y2).data :=
      fun hc => intToString_no_underscore y2 '_' hc rfl
    obtain ⟨hteq, _⟩ :=
      append_marker_cancel '_' t1.data t2.data _ _ _ h1 h2 hd
    exact ht (String.ext hteq)
  · intro t1 t2 y1 y2 fmt now cfg hl hts hrs hrc hpy hsy hy1 hy2 ht _ h
    have hd := congrArg String.data h
    rw [plain_name_data t1 y1 fmt now cfg hl hts hrs hrc hpy hsy,
      plain_name_data t2 y2 fmt now cfg hl hts hrs hrc hpy hsy] at hd
    by_cases hp : cfg.prefix_tpl = ""
    · rw [if_pos hp, if_pos hp] at hd
      have h1 : '-' ∉ (toString y1).data :=
        fun hc => intToString_nonneg_no_dash y1 hy1 '-' hc rfl
      have h2 : '-' ∉ (toString y2).data :=
        fun hc => intToString_nonneg_no_dash y2 hy2 '-' hc rfl
      obtain ⟨hteq, _⟩ :=
        append_marker_cancel '-' t1.data t2.data _ _ _ h1 h2 hd
      exact ht (String.ext hteq)
    · rw [if_neg hp, if_neg hp, List.append_assoc, List.append_assoc] at hd
      have hcanc := List.append_cancel_right (List.append_cancel_left hd)
      exact ht (String.ext hcanc)

/-- Witness for the amended C8 theorem: determinism with the timestamp off,
and distinct names for distinct (table, year) pairs under the default and a
plain custom configuration. -/
theorem generate_year_filename_deterministic_and_injective_witness :
    generate_year_filename "Ventas" 2008 "sql"
        (some ⟨true, "", "", false, true, true⟩) "_20240101_120000"
      = generate_year_filename "Ventas" 2008 "sql"
        (some ⟨true, "", "", false, true, true⟩) "_20240101_120001"
    ∧ generate_year_filename "alfa" 2008 "sql" none ""
      ≠ generate_year_filename "beta" 2009 "sql" none ""
    ∧ generate_year_filename "alfa" 2008 "sql"
        (some ⟨false, "x", "", false, false, false⟩) ""
      ≠ generate_year_filename "beta" 2009 "sql"
        (some ⟨false, "x", "", false, false, false⟩) "" :=
  ⟨generate_year_filename_deterministic_and_injective.1 "Ventas" 2008 "sql"
      ⟨true, "", "", false, true, true⟩ "_20240101_120000" "_20240101_120001" rfl,
   generate_year_filename_deterministic_and_injective.2.2.1 "alfa" "beta"
      2008 2009 "sql" "" (by decide) (by decide),
   generate_year_filename_deterministic_and_injective.2.2.2 "alfa" "beta"
      2008 2009 "sql" "" ⟨false, "x", "", false, false, false⟩
      rfl rfl rfl rfl (by decide) (by decide) (by decide) (by decide)
      (by decide) (by decide)⟩
